import Mathlib

/-!
Verification of the CSG surface-distance evaluator.

The source (`src/src/main.rs`) defines three data types — `Point`,
`Vector` and the surface enum `CSGSurface` — and a single method
`CSGSurface::distance_to_surface(&self, point, vector) -> Option<f64>`
that dispatches on the surface variant.  We embed the data model and the
evaluator shallowly, with `f64` modelled as the real numbers `ℝ` (the
formulas are plain arithmetic, `sqrt` and `tan`), and prove the spec's
claims about the per-variant formulas.  For the one clause that is about
IEEE-754 division by zero (the degenerate general plane), a separate
model `planeArmIEEE` keeps the same arm but gives division its IEEE
semantics on an extended value type.
-/

namespace CSG

/-- `Point` from the source: three coordinates `x`, `y`, `z`. -/
structure Point where
  x : ℝ
  y : ℝ
  z : ℝ

/-- `Vector` from the source: three components `dx`, `dy`, `dz`. -/
structure Vector where
  dx : ℝ
  dy : ℝ
  dz : ℝ

/-- The surface enum `CSGSurface` from the source, variant for variant,
with the same parameter names and order. -/
inductive CSGSurface where
  | Sphere (x y z radius : ℝ)
  | XPlane (x : ℝ)
  | YPlane (y : ℝ)
  | ZPlane (z : ℝ)
  | Plane (a b c d : ℝ)
  | XAxisCylinder (radius : ℝ)
  | YAxisCylinder (radius : ℝ)
  | ZAxisCylinder (radius : ℝ)
  | XAxisCone (x y z angle : ℝ)
  | YAxisCone (x y z angle : ℝ)
  | ZAxisCone (x y z angle : ℝ)
  | Quadric (a b c d e f g h j k : ℝ)
  | XAxisTorus (x0 y0 z0 a b c : ℝ)

open CSGSurface

/-- `CSGSurface::distance_to_surface`, arm for arm from the source.
`powi(2)` is `^ 2`, `sqrt` is `Real.sqrt`, `tan` is `Real.tan`,
`abs` is `|·|`, and the `Option<f64>` result is `Option ℝ`. -/
noncomputable def distance_to_surface (s : CSGSurface) (point : Point) (vector : Vector) : Option ℝ :=
  match s with
  | Sphere x y z radius =>
      let distance_to_center := ((point.x - x) ^ 2 + (point.y - y) ^ 2 + (point.z - z) ^ 2).sqrt
      let distance_to_surface := |distance_to_center - radius|
      some distance_to_surface
  | XPlane x =>
      if vector.dx = 0 then none
      else
        let t := (x - point.x) / vector.dx
        if t ≥ 0 then some t else none
  | YPlane y =>
      if vector.dy = 0 then none
      else
        let t := (y - point.y) / vector.dy
        if t ≥ 0 then some t else none
  | ZPlane z =>
      if vector.dz = 0 then none
      else
        let t := (z - point.z) / vector.dz
        if t ≥ 0 then some t else none
  | Plane a b c d =>
      let numerator := a * point.x + b * point.y + c * point.z + d
      let denominator := (a ^ 2 + b ^ 2 + c ^ 2).sqrt
      some |numerator / denominator|
  | XAxisCylinder radius =>
      let distance_to_axis := (point.y ^ 2 + point.z ^ 2).sqrt
      some |distance_to_axis - radius|
  | YAxisCylinder radius =>
      let distance_to_axis := (point.x ^ 2 + point.z ^ 2).sqrt
      some |distance_to_axis - radius|
  | ZAxisCylinder radius =>
      let distance_to_axis := (point.x ^ 2 + point.y ^ 2).sqrt
      some |distance_to_axis - radius|
  | XAxisCone x y z angle =>
      let tan_angle := Real.tan angle
      let distance_to_apex := ((point.y - y) ^ 2 + (point.z - z) ^ 2).sqrt
      let distance_to_surface := |(|point.x - x|) - distance_to_apex * tan_angle|
      some distance_to_surface
  | YAxisCone x y z angle =>
      let tan_angle := Real.tan angle
      let distance_to_apex := ((point.x - x) ^ 2 + (point.z - z) ^ 2).sqrt
      let distance_to_surface := |(|point.y - y|) - distance_to_apex * tan_angle|
      some distance_to_surface
  | ZAxisCone x y z angle =>
      let tan_angle := Real.tan angle
      let distance_to_apex := ((point.x - x) ^ 2 + (point.y - y) ^ 2).sqrt
      let distance_to_surface := |(|point.z - z|) - distance_to_apex * tan_angle|
      some distance_to_surface
  | Quadric a b c d e f g h j k =>
      let value := a * point.x ^ 2 + b * point.y ^ 2 + c * point.z ^ 2 +
                   d * (point.x * point.y) + e * (point.y * point.z) + f * (point.x * point.z) +
                   g * point.x + h * point.y + j * point.z + k
      some |value|
  | XAxisTorus x0 y0 z0 a _b c =>
      let dx := point.x - x0
      let dy := point.y - y0
      let dz := point.z - z0
      let distance_to_center := |(dy ^ 2 + dz ^ 2).sqrt - a|
      let distance_to_surface := |(distance_to_center ^ 2 + dx ^ 2).sqrt - c|
      some distance_to_surface

/-- An IEEE-754 double-precision value, with the finite range idealized
as the reals: a finite value, positive infinity, negative infinity, or
NaN. -/
inductive FVal where
  | fin (x : ℝ)
  | inf
  | neginf
  | nan

/-- IEEE-754 division of two finite doubles (their values idealized as
exact reals): division by (positive) zero yields `inf` or `neginf` for a
nonzero numerator and `nan` for `0 / 0`; otherwise the quotient is
finite. -/
noncomputable def ieeeDiv (n d : ℝ) : FVal :=
  if d = 0 then
    (if 0 < n then FVal.inf else if n < 0 then FVal.neginf else FVal.nan)
  else FVal.fin (n / d)

/-- IEEE-754 absolute value on extended values: both infinities map to
positive infinity and NaN stays NaN. -/
def FVal.fabs : FVal → FVal
  | fin x => fin |x|
  | inf => inf
  | neginf => inf
  | nan => nan

/-- The `Plane` arm of `distance_to_surface`, re-read with IEEE-754
semantics for the final division (the only operation of that arm that can
leave the finite range when all inputs are finite): the same numerator
`a·px + b·py + c·pz + d` and denominator `sqrt(a² + b² + c²)` as in the
source, combined by `ieeeDiv` and followed by the absolute value. -/
noncomputable def planeArmIEEE (a b c d px py pz : ℝ) : FVal :=
  (ieeeDiv (a * px + b * py + c * pz + d) (Real.sqrt (a ^ 2 + b ^ 2 + c ^ 2))).fabs

end CSG

namespace CSG

open CSGSurface

/-- Helper: the axis-plane arm shape returns `none` exactly when the
direction component is zero or the ray parameter is negative. -/
theorem axis_arm_none_iff (t dcomp : ℝ) :
    ((if dcomp = 0 then (none : Option ℝ)
      else if t ≥ 0 then some t else none) = none) ↔
      (dcomp = 0 ∨ t < 0) := by
  rcases eq_or_ne dcomp 0 with h | h
  · simp [h]
  · rcases le_or_lt 0 t with ht | ht
    · simp [h, ht, not_lt.mpr ht]
    · simp [h, not_le.mpr ht, ht]

/-- Helper: the axis-plane arm shape returns `some t` when the direction
component is nonzero and the ray parameter is nonnegative. -/
theorem axis_arm_some (t dcomp : ℝ) (h : dcomp ≠ 0) (ht : 0 ≤ t) :
    (if dcomp = 0 then (none : Option ℝ)
      else if t ≥ 0 then some t else none) = some t := by
  simp [h, ht]

/-- Claim C1: for each axis-aligned plane variant, `distance_to_surface`
returns `none` iff the direction component along the plane's axis is zero
or the ray parameter `t = (offset - coord) / component` is negative, and
returns `some t` otherwise (including `t = 0`). -/
theorem axis_plane_ray_parameter (off : ℝ) (p : Point) (v : Vector) :
    ((distance_to_surface (XPlane off) p v = none ↔
        v.dx = 0 ∨ (off - p.x) / v.dx < 0) ∧
      (v.dx ≠ 0 → 0 ≤ (off - p.x) / v.dx →
        distance_to_surface (XPlane off) p v = some ((off - p.x) / v.dx))) ∧
    ((distance_to_surface (YPlane off) p v = none ↔
        v.dy = 0 ∨ (off - p.y) / v.dy < 0) ∧
      (v.dy ≠ 0 → 0 ≤ (off - p.y) / v.dy →
        distance_to_surface (YPlane off) p v = some ((off - p.y) / v.dy))) ∧
    ((distance_to_surface (ZPlane off) p v = none ↔
        v.dz = 0 ∨ (off - p.z) / v.dz < 0) ∧
      (v.dz ≠ 0 → 0 ≤ (off - p.z) / v.dz →
        distance_to_surface (ZPlane off) p v = some ((off - p.z) / v.dz))) := by
  refine ⟨⟨?_, ?_⟩, ⟨?_, ?_⟩, ⟨?_, ?_⟩⟩ <;>
    simp only [distance_to_surface]
  · exact axis_arm_none_iff _ _
  · exact fun h ht => axis_arm_some _ _ h ht
  · exact axis_arm_none_iff _ _
  · exact fun h ht => axis_arm_some _ _ h ht
  · exact axis_arm_none_iff _ _
  · exact fun h ht => axis_arm_some _ _ h ht

/-- Witness for C1: `XPlane 2` queried from `(1,1,1)` along `(1,0,0)`
returns the ray parameter `1`. -/
theorem axis_plane_ray_parameter_witness :
    distance_to_surface (XPlane 2) ⟨1, 1, 1⟩ ⟨1, 0, 0⟩ = some 1 := by
  have h := (axis_plane_ray_parameter 2 ⟨1, 1, 1⟩ ⟨1, 0, 0⟩).1.2
    (by norm_num) (by norm_num)
  norm_num at h
  exact h

/-- Claim C2: the `Sphere` arm always returns
`some |dist(point, center) - radius|`, independently of the direction. -/
theorem sphere_formula (cx cy cz r : ℝ) (p : Point) (v : Vector) :
    distance_to_surface (Sphere cx cy cz r) p v =
      some |Real.sqrt ((p.x - cx) ^ 2 + (p.y - cy) ^ 2 + (p.z - cz) ^ 2) - r| ∧
    distance_to_surface (Sphere cx cy cz r) p v ≠ none ∧
    ∀ v' : Vector, distance_to_surface (Sphere cx cy cz r) p v' =
      distance_to_surface (Sphere cx cy cz r) p v := by
  refine ⟨rfl, ?_, fun v' => rfl⟩
  simp [distance_to_surface]

/-- Claim C3: the `Plane` arm, under the nonzero-normal precondition,
returns `some (|a·px + b·py + c·pz + d| / sqrt(a² + b² + c²))`, never
`none`, and does not read the direction. -/
theorem plane_formula (a b c d : ℝ) (h : ¬(a = 0 ∧ b = 0 ∧ c = 0))
    (p : Point) (v : Vector) :
    distance_to_surface (Plane a b c d) p v =
      some (|a * p.x + b * p.y + c * p.z + d| / Real.sqrt (a ^ 2 + b ^ 2 + c ^ 2)) ∧
    distance_to_surface (Plane a b c d) p v ≠ none ∧
    ∀ v' : Vector, distance_to_surface (Plane a b c d) p v' =
      distance_to_surface (Plane a b c d) p v := by
  refine ⟨?_, ?_, fun v' => rfl⟩
  · simp only [distance_to_surface, Option.some_inj]
    rw [abs_div, abs_of_nonneg (Real.sqrt_nonneg _)]
  · simp [distance_to_surface]

/-- Witness for C3: the plane `x + y + z - 3 = 0` queried at `(1,1,1)`. -/
theorem plane_formula_witness :
    distance_to_surface (Plane 1 1 1 (-3)) ⟨1, 1, 1⟩ ⟨1, 1, 1⟩ =
      some (|1 * 1 + 1 * 1 + 1 * 1 + (-3)| / Real.sqrt (1 ^ 2 + 1 ^ 2 + 1 ^ 2)) :=
  (plane_formula 1 1 1 (-3) (by norm_num) ⟨1, 1, 1⟩ ⟨1, 1, 1⟩).1

/-- Claim C4: each axis-aligned cylinder arm returns
`some |transverse_distance - radius|` (the transverse plane holding the
two coordinates orthogonal to the cylinder's axis, the axis through the
origin), the result is `0` exactly when the transverse distance equals
the radius, and the direction is not read. -/
theorem axis_cylinder_formula (r : ℝ) (p : Point) (v : Vector) :
    (distance_to_surface (XAxisCylinder r) p v =
        some |Real.sqrt (p.y ^ 2 + p.z ^ 2) - r| ∧
      (distance_to_surface (XAxisCylinder r) p v = some 0 ↔
        Real.sqrt (p.y ^ 2 + p.z ^ 2) = r) ∧
      ∀ v' : Vector, distance_to_surface (XAxisCylinder r) p v' =
        distance_to_surface (XAxisCylinder r) p v) ∧
    (distance_to_surface (YAxisCylinder r) p v =
        some |Real.sqrt (p.x ^ 2 + p.z ^ 2) - r| ∧
      (distance_to_surface (YAxisCylinder r) p v = some 0 ↔
        Real.sqrt (p.x ^ 2 + p.z ^ 2) = r) ∧
      ∀ v' : Vector, distance_to_surface (YAxisCylinder r) p v' =
        distance_to_surface (YAxisCylinder r) p v) ∧
    (distance_to_surface (ZAxisCylinder r) p v =
        some |Real.sqrt (p.x ^ 2 + p.y ^ 2) - r| ∧
      (distance_to_surface (ZAxisCylinder r) p v = some 0 ↔
        Real.sqrt (p.x ^ 2 + p.y ^ 2) = r) ∧
      ∀ v' : Vector, distance_to_surface (ZAxisCylinder r) p v' =
        distance_to_surface (ZAxisCylinder r) p v) := by
  refine ⟨⟨rfl, ?_, fun v' => rfl⟩, ⟨rfl, ?_, fun v' => rfl⟩,
    ⟨rfl, ?_, fun v' => rfl⟩⟩ <;>
  · simp only [distance_to_surface, Option.some_inj, abs_eq_zero, sub_eq_zero]

/-- Claim C5: each axis-aligned cone arm returns
`some ||axial offset from apex| - transverse_distance_to_apex · tan(angle)|`,
never `none`, independently of the direction. -/
theorem axis_cone_formula (cx cy cz angle : ℝ) (p : Point) (v : Vector) :
    (distance_to_surface (XAxisCone cx cy cz angle) p v =
        some |(|p.x - cx|) -
          Real.sqrt ((p.y - cy) ^ 2 + (p.z - cz) ^ 2) * Real.tan angle| ∧
      distance_to_surface (XAxisCone cx cy cz angle) p v ≠ none ∧
      ∀ v' : Vector, distance_to_surface (XAxisCone cx cy cz angle) p v' =
        distance_to_surface (XAxisCone cx cy cz angle) p v) ∧
    (distance_to_surface (YAxisCone cx cy cz angle) p v =
        some |(|p.y - cy|) -
          Real.sqrt ((p.x - cx) ^ 2 + (p.z - cz) ^ 2) * Real.tan angle| ∧
      distance_to_surface (YAxisCone cx cy cz angle) p v ≠ none ∧
      ∀ v' : Vector, distance_to_surface (YAxisCone cx cy cz angle) p v' =
        distance_to_surface (YAxisCone cx cy cz angle) p v) ∧
    (distance_to_surface (ZAxisCone cx cy cz angle) p v =
        some |(|p.z - cz|) -
          Real.sqrt ((p.x - cx) ^ 2 + (p.y - cy) ^ 2) * Real.tan angle| ∧
      distance_to_surface (ZAxisCone cx cy cz angle) p v ≠ none ∧
      ∀ v' : Vector, distance_to_surface (ZAxisCone cx cy cz angle) p v' =
        distance_to_surface (ZAxisCone cx cy cz angle) p v) := by
  refine ⟨⟨rfl, ?_, fun v' => rfl⟩, ⟨rfl, ?_, fun v' => rfl⟩,
    ⟨rfl, ?_, fun v' => rfl⟩⟩ <;>
  · simp [distance_to_surface]

/-- Claim C6: the `Quadric` arm returns the magnitude of the implicit
second-degree polynomial at the point, never `none`, and does not read
the direction. -/
theorem quadric_formula (a b c d e f g h j k : ℝ) (p : Point) (v : Vector) :
    distance_to_surface (Quadric a b c d e f g h j k) p v =
      some |a * p.x ^ 2 + b * p.y ^ 2 + c * p.z ^ 2 +
        d * (p.x * p.y) + e * (p.y * p.z) + f * (p.x * p.z) +
        g * p.x + h * p.y + j * p.z + k| ∧
    distance_to_surface (Quadric a b c d e f g h j k) p v ≠ none ∧
    ∀ v' : Vector, distance_to_surface (Quadric a b c d e f g h j k) p v' =
      distance_to_surface (Quadric a b c d e f g h j k) p v := by
  refine ⟨rfl, ?_, fun v' => rfl⟩
  simp [distance_to_surface]

/-- Claim C7: the `XAxisTorus` arm returns
`some |sqrt(ringDist² + dx²) - c|` with `(dx, dy, dz) = point - center`
and `ringDist = |sqrt(dy² + dz²) - a|`, never `none`; the result depends
neither on the direction nor on the parameter `b`. -/
theorem torus_formula (x0 y0 z0 a b c : ℝ) (p : Point) (v : Vector) :
    distance_to_surface (XAxisTorus x0 y0 z0 a b c) p v =
      some |Real.sqrt
          ((|Real.sqrt ((p.y - y0) ^ 2 + (p.z - z0) ^ 2) - a|) ^ 2 +
            (p.x - x0) ^ 2) - c| ∧
    distance_to_surface (XAxisTorus x0 y0 z0 a b c) p v ≠ none ∧
    (∀ v' : Vector, distance_to_surface (XAxisTorus x0 y0 z0 a b c) p v' =
      distance_to_surface (XAxisTorus x0 y0 z0 a b c) p v) ∧
    ∀ b1 b2 : ℝ, distance_to_surface (XAxisTorus x0 y0 z0 a b1 c) p v =
      distance_to_surface (XAxisTorus x0 y0 z0 a b2 c) p v := by
  refine ⟨rfl, ?_, fun v' => rfl, fun b1 b2 => rfl⟩
  simp [distance_to_surface]

/-- Claim C8: `distance_to_surface` returns `none` only for the three
axis-aligned plane variants; every other variant, a degenerate
`Plane 0 0 0 d` included, returns `some`.  Under IEEE-754 division
semantics the degenerate plane's contained value is non-finite: positive
infinity when `d ≠ 0` and NaN when `d = 0`. -/
theorem total_except_axis_planes :
    (∀ (s : CSGSurface) (p : Point) (v : Vector),
      distance_to_surface s p v = none →
        (∃ x, s = XPlane x) ∨ (∃ y, s = YPlane y) ∨ (∃ z, s = ZPlane z)) ∧
    (∀ (d : ℝ) (p : Point) (v : Vector),
      ∃ val, distance_to_surface (Plane 0 0 0 d) p v = some val) ∧
    (∀ d px py pz : ℝ, d ≠ 0 → planeArmIEEE 0 0 0 d px py pz = FVal.inf) ∧
    (∀ px py pz : ℝ, planeArmIEEE 0 0 0 0 px py pz = FVal.nan) := by
  have harm : ∀ d px py pz : ℝ, planeArmIEEE 0 0 0 d px py pz =
      (if 0 < d then FVal.inf else if d < 0 then FVal.neginf else FVal.nan).fabs := by
    intro d px py pz
    simp only [planeArmIEEE, ieeeDiv]
    rw [show (0:ℝ) * px + 0 * py + 0 * pz + d = d by ring,
        show ((0:ℝ) ^ 2 + 0 ^ 2 + 0 ^ 2) = 0 by norm_num, Real.sqrt_zero,
        if_pos rfl]
  refine ⟨?_, ?_, ?_, ?_⟩
  · intro s p v h
    cases s
    all_goals first
      | exact Or.inl ⟨_, rfl⟩
      | exact Or.inr (Or.inl ⟨_, rfl⟩)
      | exact Or.inr (Or.inr ⟨_, rfl⟩)
      | simp [distance_to_surface] at h
  · intro d p v
    exact ⟨_, rfl⟩
  · intro d px py pz hd
    rw [harm]
    rcases hd.lt_or_lt with h | h
    · rw [if_neg (by linarith), if_pos h]
      rfl
    · rw [if_pos h]
      rfl
  · intro px py pz
    rw [harm]
    norm_num
    rfl

/-- Witness for C8: the degenerate plane `0·x + 0·y + 0·z + 1 = 0`
evaluates, under IEEE division, to positive infinity. -/
theorem total_except_axis_planes_witness :
    planeArmIEEE 0 0 0 1 0 0 0 = FVal.inf :=
  total_except_axis_planes.2.2.1 1 0 0 0 (by norm_num)

/-- Claim C9: whenever `distance_to_surface` returns a present value (the
`Plane` variant assumed to satisfy its nonzero-normal precondition), that
value is nonnegative. -/
theorem some_value_nonneg (s : CSGSurface) (p : Point) (v : Vector) (val : ℝ)
    (hplane : ∀ a b c d : ℝ, s = Plane a b c d → ¬(a = 0 ∧ b = 0 ∧ c = 0))
    (h : distance_to_surface s p v = some val) : 0 ≤ val := by
  cases s with
  | XPlane x =>
      simp only [distance_to_surface] at h
      split_ifs at h with h1 h2
      · exact Option.some_inj.mp h ▸ h2
  | YPlane y =>
      simp only [distance_to_surface] at h
      split_ifs at h with h1 h2
      · exact Option.some_inj.mp h ▸ h2
  | ZPlane z =>
      simp only [distance_to_surface] at h
      split_ifs at h with h1 h2
      · exact Option.some_inj.mp h ▸ h2
  | Plane a b c d =>
      simp only [distance_to_surface, Option.some_inj] at h
      exact h ▸ abs_nonneg _
  | _ =>
      simp only [distance_to_surface, Option.some_inj] at h
      exact h ▸ abs_nonneg _

/-- Witness for C9: the unit sphere about the origin, queried at the
origin, returns the nonnegative value `1`. -/
theorem some_value_nonneg_witness : (0 : ℝ) ≤ 1 :=
  some_value_nonneg (Sphere 0 0 0 1) ⟨0, 0, 0⟩ ⟨0, 0, 0⟩ 1
    (by intro a b c d heq; cases heq)
    (by norm_num [distance_to_surface])

/-- Claim C10: scaling all four `Plane` coefficients by a nonzero `k`
leaves the returned distance unchanged. -/
theorem plane_scale_invariance (a b c d k : ℝ) (hk : k ≠ 0)
    (hn : ¬(a = 0 ∧ b = 0 ∧ c = 0)) (p : Point) (v : Vector) :
    distance_to_surface (Plane (k * a) (k * b) (k * c) (k * d)) p v =
      distance_to_surface (Plane a b c d) p v := by
  simp only [distance_to_surface, Option.some_inj]
  have hnum : k * a * p.x + k * b * p.y + k * c * p.z + k * d =
      k * (a * p.x + b * p.y + c * p.z + d) := by ring
  have hden : Real.sqrt ((k * a) ^ 2 + (k * b) ^ 2 + (k * c) ^ 2) =
      |k| * Real.sqrt (a ^ 2 + b ^ 2 + c ^ 2) := by
    rw [show (k * a) ^ 2 + (k * b) ^ 2 + (k * c) ^ 2 =
          k ^ 2 * (a ^ 2 + b ^ 2 + c ^ 2) by ring,
        Real.sqrt_mul (sq_nonneg k), Real.sqrt_sq_eq_abs]
  rw [hnum, hden, abs_div, abs_div, abs_mul, abs_mul, abs_abs,
      mul_div_mul_left _ _ (abs_ne_zero.mpr hk)]

/-- Witness for C10: scaling the plane `x + y + z - 3 = 0` by `2` leaves
the distance from `(1,1,1)` unchanged. -/
theorem plane_scale_invariance_witness :
    distance_to_surface (Plane (2 * 1) (2 * 1) (2 * 1) (2 * (-3))) ⟨1, 1, 1⟩ ⟨0, 0, 0⟩ =
      distance_to_surface (Plane 1 1 1 (-3)) ⟨1, 1, 1⟩ ⟨0, 0, 0⟩ :=
  plane_scale_invariance 1 1 1 (-3) 2 (by norm_num) (by norm_num) ⟨1, 1, 1⟩ ⟨0, 0, 0⟩

end CSG
